import Mathlib

/-!
Verification of the MTProto session core (pyrogram/session/session.py).

This file gives a shallow embedding of the session state machine: the
mutable state owned by a `Session` object, the per-message dispatch loop of
`net_worker`, the ack flush, the result interpretation at the end of
`_send`, the retry loop of `send`, and the state effects of `start`, `stop`
and `restart`.  Time, the event loop and the raw transport are abstracted:
a blocking wait is represented by its observable outcome, and each
outbound transport attempt by an oracle value.  All container and
dictionary state is modelled with lists so that every definition is
executable and every concrete run can be checked by `decide`.
-/

namespace PyrogramSession

/-- FutureSalt TL object: `valid_since`, `valid_until`, `salt` (health of
the 64-bit server salt).  `FutureSalt(0, 0, x)` is how `start` wraps a bare
salt value. -/
structure FutureSalt where
  valid_since : Nat
  valid_until : Nat
  salt : Nat
  deriving DecidableEq, Repr

/-- Message bodies the worker loop distinguishes (session.py lines
243-260).  `rpcResult` carries a nested payload in its `result` field;
`update` stands for any body of none of the special types, which is routed
to the client updates queue. -/
inductive Body where
  | msgDetailedInfo (answer_msg_id : Nat)
  | msgNewDetailedInfo (answer_msg_id : Nat)
  | newSessionCreated
  | badMsgNotification (bad_msg_id : Nat) (error_code : Nat)
  | badServerSalt (bad_msg_id : Nat) (error_code : Nat) (new_server_salt : Nat)
  | futureSaltsBody (req_msg_id : Nat) (salts : List FutureSalt)
  | rpcResult (req_msg_id : Nat) (result : Body)
  | rpcError (error_code : Nat) (error_message : String)
  | pong (msg_id : Nat) (ping_id : Nat)
  | update (tag : Nat)
  deriving DecidableEq, Repr

/-- Message inside the decrypted envelope: `msg_id`, `seq_no`, `body` (the
`length` field is irrelevant to dispatch and omitted). -/
structure Message where
  msg_id : Nat
  seq_no : Nat
  body : Body
  deriving DecidableEq, Repr

/-- Result slot (class `Result`, session.py lines 39-42): `value` starts as
`None`, `event` starts unset. -/
structure ResultSlot where
  value : Option Body
  eventSet : Bool
  deriving DecidableEq, Repr

/-- Freshly allocated slot, as in `self.results[msg_id] = Result()`. -/
def ResultSlot.new : ResultSlot := { value := none, eventSet := false }

/-- The mutable session state the verified operations touch.  Python sets
and dicts are modelled as lists: `pending_acks` is kept duplicate-free by
`setAdd`, `results` is an association list keyed by msg_id.
`connectionOpen` and `tasksRunning` summarise the transport handle and the
four background task handles; `hasClient` tells whether `self.client` is
not `None`. -/
structure SessionState where
  current_salt : Option FutureSalt
  pending_acks : List Nat
  results : List (Nat × ResultSlot)
  updates_queue : List Body
  is_connected : Bool
  connectionOpen : Bool
  tasksRunning : Bool
  hasClient : Bool
  deriving DecidableEq, Repr

/-- Python `set.add`: insert only when absent, so the list stays a faithful
model of a set. -/
def setAdd (l : List Nat) (x : Nat) : List Nat :=
  if x ∈ l then l else l ++ [x]

/-- Constant `Session.WAIT_TIMEOUT` (seconds). -/
def WAIT_TIMEOUT : Nat := 15

/-- Constant `Session.MAX_RETRIES`. -/
def MAX_RETRIES : Nat := 5

/-- Constant `Session.ACKS_THRESHOLD`. -/
def ACKS_THRESHOLD : Nat := 8

/-- Routing of a dispatched body to the msg_id of the request it answers
(session.py lines 250-257): `BadMsgNotification`/`BadServerSalt` answer
`bad_msg_id`, `FutureSalts`/`RpcResult` answer `req_msg_id`, `Pong`
answers `msg_id`; every other body yields `None` (routed to the updates
queue instead). -/
def routeMsgId : Body → Option Nat
  | Body.badMsgNotification bad_msg_id _ => some bad_msg_id
  | Body.badServerSalt bad_msg_id _ _ => some bad_msg_id
  | Body.futureSaltsBody req_msg_id _ => some req_msg_id
  | Body.rpcResult req_msg_id _ => some req_msg_id
  | Body.pong msg_id _ => some msg_id
  | _ => none

/-- Python `getattr(msg.body, "result", msg.body)` (session.py line 263):
only `RpcResult` has a `result` attribute; all other bodies are stored
whole. -/
def getResultAttr : Body → Body
  | Body.rpcResult _ r => r
  | b => b

/-- Bodies fully handled before the result-routing step of the worker loop
(session.py lines 243-248). -/
def isEarlyHandled : Body → Bool
  | Body.msgDetailedInfo _ => true
  | Body.msgNewDetailedInfo _ => true
  | Body.newSessionCreated => true
  | _ => false

/-- Mutation of the slot at key `mid` performed by the worker (session.py
lines 263-264): set `value` and fire the event. -/
def updateSlot (rs : List (Nat × ResultSlot)) (mid : Nat) (v : Body) :
    List (Nat × ResultSlot) :=
  rs.map (fun p => if p.1 = mid then (p.1, { value := some v, eventSet := true }) else p)

/-- Guarded resolution `if msg_id in self.results` (session.py line 262):
when the key is absent nothing happens. -/
def resolveSlot (s : SessionState) (mid : Nat) (v : Body) : SessionState :=
  if (s.results.lookup mid).isSome then { s with results := updateSlot s.results mid v }
  else s

/-- Ack bookkeeping at the top of the loop body (session.py lines 237-241),
reached only when the message is not a duplicate: an odd `seq_no` enrolls
`msg_id` in `pending_acks`. -/
def ackStep (s : SessionState) (m : Message) : SessionState :=
  if m.seq_no % 2 ≠ 0 then { s with pending_acks := setAdd s.pending_acks m.msg_id } else s

/-- Dispatch on the body type (session.py lines 243-264), after the ack
bookkeeping. -/
def dispatchBody (s : SessionState) (b : Body) : SessionState :=
  match b with
  | Body.msgDetailedInfo a => { s with pending_acks := setAdd s.pending_acks a }
  | Body.msgNewDetailedInfo a => { s with pending_acks := setAdd s.pending_acks a }
  | Body.newSessionCreated => s
  | b =>
    match routeMsgId b with
    | some mid => resolveSlot s mid (getResultAttr b)
    | none => if s.hasClient then { s with updates_queue := s.updates_queue ++ [b] } else s

/-- One iteration of `for msg in messages` in `net_worker` (session.py
lines 236-264).  A message with odd `seq_no` whose `msg_id` is already in
`pending_acks` is a duplicate and is skipped whole (`continue`). -/
def processMsg (s : SessionState) (m : Message) : SessionState :=
  if m.seq_no % 2 ≠ 0 ∧ m.msg_id ∈ s.pending_acks then s
  else dispatchBody (ackStep s m) m.body

/-- Dispatch of every message of one decrypted packet, in order. -/
def dispatchAll (s : SessionState) (msgs : List Message) : SessionState :=
  msgs.foldl processMsg s

/-- Observable outcome of the fire-and-forget `_send(MsgsAck(...), False)`
attempt (session.py line 270): success, or one of the two exception types
the worker catches (`OSError`, `TimeoutError`). -/
inductive AckSendOutcome where
  | ok
  | osError
  | timeoutError
  deriving DecidableEq, Repr

/-- Ack flush at the bottom of the worker loop (session.py lines 266-274):
when `pending_acks` has reached `ACKS_THRESHOLD`, one `msgs_ack` carrying
`list(self.pending_acks)` is attempted; on success the set is cleared, on
`OSError`/`TimeoutError` (`pass`) it is kept.  The second component lists
the payloads of the `msgs_ack` attempts made. -/
def flushAcks (s : SessionState) (outcome : AckSendOutcome) :
    SessionState × List (List Nat) :=
  if ACKS_THRESHOLD ≤ s.pending_acks.length then
    match outcome with
    | AckSendOutcome.ok => ({ s with pending_acks := [] }, [s.pending_acks])
    | AckSendOutcome.osError => (s, [s.pending_acks])
    | AckSendOutcome.timeoutError => (s, [s.pending_acks])
  else (s, [])

/-- Processing of one whole packet by `net_worker`: dispatch every message,
then flush the acks. -/
def processPacket (s : SessionState) (msgs : List Message)
    (outcome : AckSendOutcome) : SessionState × List (List Nat) :=
  flushAcks (dispatchAll s msgs) outcome

/-- State effect of `stop()` (session.py lines 172-204): clear
`is_connected`, terminate the background tasks, close the transport, and
fire the event of every outstanding result slot (lines 195-196).  Slot
values are not written, so a slot whose value was still `None` keeps it. -/
def stopState (s : SessionState) : SessionState :=
  { s with
    is_connected := false
    tasksRunning := false
    connectionOpen := false
    results := s.results.map (fun p => (p.1, { p.2 with eventSet := true })) }

/-- Constant `MTProto.INITIAL_SALT`.  The crypto module is outside this
repository; the value is the one recorded by the legacy copy kept in
session.py (`INITIAL_SALT = 0x616e67656c696361`).  Its exact value is
irrelevant to the theorems below. -/
def INITIAL_SALT : Nat := 0x616e67656c696361

/-- Successive values assigned to `self.current_salt` during a successful
`start()` (session.py lines 136-138), given the `new_server_salt` carried
by the pong and the `salts` list of the `GetFutureSalts(1)` answer.  An
empty `salts` list would make `salts[0]` raise, failing `start`; that case
yields `none`. -/
def startSaltAssignments (pongNewServerSalt : Nat) (salts : List FutureSalt) :
    Option (List FutureSalt) :=
  match salts with
  | [] => none
  | s0 :: _ =>
    some [⟨0, 0, INITIAL_SALT⟩, ⟨0, 0, pongNewServerSalt⟩, s0]

/-- State effect of a successful `start()` (session.py lines 126-170):
reopen the transport, spawn the background tasks, run the three salt
assignments, and set `is_connected`. -/
def startStateSuccess (pongNewServerSalt : Nat) (salts : List FutureSalt)
    (s : SessionState) : Option SessionState :=
  match startSaltAssignments pongNewServerSalt salts with
  | none => none
  | some trace =>
    some { s with
           connectionOpen := true
           tasksRunning := true
           current_salt := trace.getLast?
           is_connected := true }

/-- Translation of `restart()` (session.py lines 206-208).  The method body
is `self.stop()` followed by `self.start()`, both without `await`: under
asyncio, calling an async function merely builds a coroutine object, and a
coroutine that is never awaited or scheduled never runs.  Both coroutine
objects are discarded, so `restart()` completes without executing any part
of `stop` or `start`; its state effect is the identity. -/
def restartEffect (s : SessionState) : SessionState := s

/-- Sequential composition `stop()` then `start()` run to completion, the
behaviour the spec ascribes to `restart()`. -/
def stopThenStart (pongNewServerSalt : Nat) (salts : List FutureSalt)
    (s : SessionState) : Option SessionState :=
  startStateSuccess pongNewServerSalt salts (stopState s)

/-- Table `Session.BAD_MSG_DESCRIPTION` (session.py lines 66-78), as the
lookup function `dict.get` reads it. -/
def BAD_MSG_DESCRIPTION : Nat → Option String
  | 16 => some "[16] msg_id too low, the client time has to be synchronized"
  | 17 => some "[17] msg_id too high, the client time has to be synchronized"
  | 18 => some "[18] incorrect two lower order msg_id bits, the server expects client message msg_id to be divisible by 4"
  | 19 => some "[19] container msg_id is the same as msg_id of a previously received message"
  | 20 => some "[20] message too old, it cannot be verified by the server"
  | 32 => some "[32] msg_seqno too low"
  | 33 => some "[33] msg_seqno too high"
  | 34 => some "[34] an even msg_seqno expected, but odd received"
  | 35 => some "[35] odd msg_seqno expected, but even received"
  | 48 => some "[48] incorrect server salt"
  | 64 => some "[64] invalid container"
  | _ => none

/-- Outcome a waiting `_send` caller observes once released (session.py
lines 378-390): `raise TimeoutError`, `Error.raise_it(result, type(data))`,
`raise Exception(description text)`, or a normal return. -/
inductive SendOutcome where
  | timeoutError
  | rpcErrorRaised (error_code : Nat) (error_message : String) (request_type : Nat)
  | badMsgException (text : String)
  | returned (value : Body)
  deriving DecidableEq, Repr

/-- Interpretation of the popped slot value at the end of `_send`
(session.py lines 378-390).  `request_type` stands for `type(data)`, the
tag `Error.raise_it` attaches to the domain error.  The unknown-code text
is `"Error code {}".format(result.error_code)`. -/
def interpretResult (result : Option Body) (request_type : Nat) : SendOutcome :=
  match result with
  | none => SendOutcome.timeoutError
  | some (Body.rpcError code msg) => SendOutcome.rpcErrorRaised code msg request_type
  | some (Body.badMsgNotification _ ec) =>
    SendOutcome.badMsgException ((BAD_MSG_DESCRIPTION ec).getD ("Error code " ++ toString ec))
  | some v => SendOutcome.returned v

/-- Outcome of the `wait_for(self.is_connected.wait(), WAIT_TIMEOUT)` call
at the top of `send` (session.py lines 393-396). -/
inductive WaitOutcome where
  | ready
  | timedOut
  deriving DecidableEq, Repr

/-- Observable outcome of one `_send(data)` attempt inside `send`: a value,
or the exception the attempt raised.  `otherError` stands for any
exception outside the caught triple (for instance a domain `RpcError` that
is not an `InternalServerError`, or the `BadMsgNotification` exception). -/
inductive AttemptOutcome where
  | ok (value : Body)
  | osError
  | timeoutError
  | internalServerError
  | otherError (tag : Nat)
  deriving DecidableEq, Repr

/-- Membership in the `except (OSError, TimeoutError, InternalServerError)`
clause of `send` (session.py line 400). -/
def isRetryable : AttemptOutcome → Bool
  | AttemptOutcome.osError => true
  | AttemptOutcome.timeoutError => true
  | AttemptOutcome.internalServerError => true
  | _ => false

/-- Successful attempt discriminator. -/
def isOk : AttemptOutcome → Bool
  | AttemptOutcome.ok _ => true
  | _ => false

/-- Final outcome of `send`: a returned value or a propagated exception. -/
inductive SendFinal where
  | ok (value : Body)
  | raised (e : AttemptOutcome)
  deriving DecidableEq, Repr

/-- Trace of one `send` call: its outcome, how many `_send` attempts were
made, and how many `asyncio.sleep(0.5)` pauses preceded retries. -/
structure SendTrace where
  outcome : SendFinal
  attempts : Nat
  sleeps : Nat
  deriving DecidableEq, Repr

/-- Recursive `send(data, retries)` (session.py lines 392-410).  `connWait`
gives the outcome of the `is_connected` wait of each recursion level and
`attempt` the outcome of its `_send(data)` call; `i` indexes the level.
The wait is wrapped in `try ... except asyncio.TimeoutError: pass`, so
both of its outcomes continue identically into `_send`.  An `ok` attempt
returns; a caught retryable error with `retries == 0` propagates (`raise e
from None`), with `retries > 0` it sleeps 0.5 s and recurses with
`retries - 1`; any other exception propagates immediately. -/
def send (connWait : Nat → WaitOutcome) (attempt : Nat → AttemptOutcome) :
    Nat → Nat → SendTrace
  | i, 0 =>
    let _wait := connWait i
    match attempt i with
    | AttemptOutcome.ok v => ⟨SendFinal.ok v, 1, 0⟩
    | e => ⟨SendFinal.raised e, 1, 0⟩
  | i, retries + 1 =>
    let _wait := connWait i
    match attempt i with
    | AttemptOutcome.ok v => ⟨SendFinal.ok v, 1, 0⟩
    | e =>
      if isRetryable e then
        let t := send connWait attempt (i + 1) retries
        ⟨t.outcome, t.attempts + 1, t.sleeps + 1⟩
      else ⟨SendFinal.raised e, 1, 0⟩

/-! Helper lemmas about the association-list model of `self.results` and
about which state fields each operation leaves untouched. -/

theorem lookup_map_slot (f : ResultSlot → ResultSlot) (l : List (Nat × ResultSlot)) (k : Nat) :
    (l.map (fun p => (p.1, f p.2))).lookup k = (l.lookup k).map f := by
  induction l with
  | nil => rfl
  | cons p rest ih =>
    simp only [List.map_cons, List.lookup]
    cases h : k == p.1 <;> simp [ih]

theorem lookup_updateSlot (l : List (Nat × ResultSlot)) (mid : Nat) (v : Body)
    (h : (l.lookup mid).isSome) :
    (updateSlot l mid v).lookup mid = some ⟨some v, true⟩ := by
  induction l with
  | nil => simp [List.lookup] at h
  | cons p rest ih =>
    simp only [updateSlot, List.map_cons]
    by_cases hk : p.1 = mid
    · rw [if_pos hk]
      simp [List.lookup, hk]
    · rw [if_neg hk]
      have hne : (mid == p.1) = false := by
        simp only [beq_eq_false_iff_ne, ne_eq]
        omega
      simp only [List.lookup, hne] at h ⊢
      exact ih h

theorem resolveSlot_of_isSome (s : SessionState) (mid : Nat) (v : Body)
    (h : (s.results.lookup mid).isSome) :
    (resolveSlot s mid v).results.lookup mid = some ⟨some v, true⟩ := by
  simp only [resolveSlot, if_pos h]
  exact lookup_updateSlot s.results mid v h

theorem resolveSlot_of_none (s : SessionState) (mid : Nat) (v : Body)
    (h : s.results.lookup mid = none) :
    resolveSlot s mid v = s := by
  simp [resolveSlot, h]

theorem resolveSlot_updates_queue (s : SessionState) (mid : Nat) (v : Body) :
    (resolveSlot s mid v).updates_queue = s.updates_queue := by
  unfold resolveSlot; split <;> rfl

theorem resolveSlot_current_salt (s : SessionState) (mid : Nat) (v : Body) :
    (resolveSlot s mid v).current_salt = s.current_salt := by
  unfold resolveSlot; split <;> rfl

theorem ackStep_results (s : SessionState) (m : Message) :
    (ackStep s m).results = s.results := by
  unfold ackStep; split <;> rfl

theorem ackStep_updates_queue (s : SessionState) (m : Message) :
    (ackStep s m).updates_queue = s.updates_queue := by
  unfold ackStep; split <;> rfl

theorem ackStep_hasClient (s : SessionState) (m : Message) :
    (ackStep s m).hasClient = s.hasClient := by
  unfold ackStep; split <;> rfl

theorem ackStep_current_salt (s : SessionState) (m : Message) :
    (ackStep s m).current_salt = s.current_salt := by
  unfold ackStep; split <;> rfl

theorem dispatchBody_current_salt (s : SessionState) (b : Body) :
    (dispatchBody s b).current_salt = s.current_salt := by
  cases b <;> simp [dispatchBody, routeMsgId, resolveSlot_current_salt] <;> split <;> rfl

theorem processMsg_current_salt (s : SessionState) (m : Message) :
    (processMsg s m).current_salt = s.current_salt := by
  unfold processMsg
  split
  · rfl
  · rw [dispatchBody_current_salt, ackStep_current_salt]

theorem send_wait_irrelevant (connWait connWait' : Nat → WaitOutcome)
    (attempt : Nat → AttemptOutcome) (i retries : Nat) :
    send connWait attempt i retries = send connWait' attempt i retries := by
  induction retries generalizing i with
  | zero => rfl
  | succ r ih => simp only [send, ih (i + 1)]

theorem send_attempts_le (connWait : Nat → WaitOutcome)
    (attempt : Nat → AttemptOutcome) (i retries : Nat) :
    (send connWait attempt i retries).attempts ≤ retries + 1 := by
  induction retries generalizing i with
  | zero =>
    simp only [send]
    cases attempt i <;> simp
  | succ r ih =>
    simp only [send]
    cases attempt i <;> simp <;> split <;> simp <;> exact ih (i + 1)

/-- The body is an `RpcError` instance (the `isinstance` test of line 382). -/
def isRpcError : Body → Bool
  | Body.rpcError _ _ => true
  | _ => false

/-- The body is a `BadMsgNotification` instance (the `isinstance` test of
line 384). -/
def isBadMsg : Body → Bool
  | Body.badMsgNotification _ _ => true
  | _ => false

theorem send_zero_err (connWait : Nat → WaitOutcome) (attempt : Nat → AttemptOutcome)
    (i : Nat) (h : isOk (attempt i) = false) :
    send connWait attempt i 0 = ⟨SendFinal.raised (attempt i), 1, 0⟩ := by
  simp only [send]
  cases ha : attempt i
  case ok v => rw [ha] at h; simp [isOk] at h
  all_goals rfl

theorem send_nonretryable_immediate (connWait : Nat → WaitOutcome)
    (attempt : Nat → AttemptOutcome) (i retries : Nat)
    (h1 : isOk (attempt i) = false) (h2 : isRetryable (attempt i) = false) :
    send connWait attempt i retries = ⟨SendFinal.raised (attempt i), 1, 0⟩ := by
  cases retries with
  | zero => exact send_zero_err connWait attempt i h1
  | succ r =>
    simp only [send]
    cases ha : attempt i <;> rw [ha] at h1 h2 <;> simp [isOk, isRetryable] at h1 h2 ⊢

theorem send_succ_retryable (connWait : Nat → WaitOutcome)
    (attempt : Nat → AttemptOutcome) (i r : Nat) (h : isRetryable (attempt i) = true) :
    send connWait attempt i (r + 1)
      = ⟨(send connWait attempt (i + 1) r).outcome,
         (send connWait attempt (i + 1) r).attempts + 1,
         (send connWait attempt (i + 1) r).sleeps + 1⟩ := by
  simp only [send]
  cases ha : attempt i <;> rw [ha] at h <;> simp [isRetryable] at h ⊢

/-!  Claim theorems.  -/

/-- C1: after `stop()` returns, every result slot that was in
`self.results` at the time of the call has had its event fired with its
value preserved, so a caller blocked inside `_send` on that slot is
released; a slot whose value is still `None` makes the released caller
raise `TimeoutError`, and `is_connected` is cleared. -/
theorem stop_releases_pending_results (s : SessionState) (mid : Nat) (slot : ResultSlot)
    (request_type : Nat) (h : s.results.lookup mid = some slot) :
    (stopState s).is_connected = false
    ∧ (stopState s).results.lookup mid = some { value := slot.value, eventSet := true }
    ∧ (slot.value = none → interpretResult slot.value request_type = SendOutcome.timeoutError) := by
  refine ⟨rfl, ?_, ?_⟩
  · simp only [stopState]
    rw [lookup_map_slot (fun r => { r with eventSet := true }) s.results mid, h]
    rfl
  · intro hv
    rw [hv]
    rfl

/-- Concrete running session with one pending, unresolved slot keyed 4. -/
def exampleConnectedState : SessionState :=
  { current_salt := some ⟨0, 0, 1⟩
    pending_acks := []
    results := [(4, ResultSlot.new)]
    updates_queue := []
    is_connected := true
    connectionOpen := true
    tasksRunning := true
    hasClient := false }

/-- C1 witness: concrete session with one pending, unresolved slot. -/
theorem stop_releases_pending_results_witness :
    exampleConnectedState.results.lookup 4 = some ResultSlot.new
    ∧ (stopState exampleConnectedState).is_connected = false
    ∧ (stopState exampleConnectedState).results.lookup 4
        = some { value := none, eventSet := true } :=
  ⟨by decide,
   (stop_releases_pending_results exampleConnectedState 4 ResultSlot.new 0 (by decide)).1,
   (stop_releases_pending_results exampleConnectedState 4 ResultSlot.new 0 (by decide)).2.1⟩

/-- C4: a message with odd `seq_no` whose `msg_id` is already in
`pending_acks` is a duplicate: the worker skips it whole, leaving the
entire session state (acks, result slots, updates queue) unchanged, so the
duplicate is acked at most once and dispatched at most once. -/
theorem duplicate_message_skipped (s : SessionState) (m : Message)
    (h1 : m.seq_no % 2 = 1) (h2 : m.msg_id ∈ s.pending_acks) :
    processMsg s m = s := by
  have hc : m.seq_no % 2 ≠ 0 ∧ m.msg_id ∈ s.pending_acks := ⟨by omega, h2⟩
  unfold processMsg
  rw [if_pos hc]

/-- Concrete session that has already acked msg_ids 21 and 33. -/
def exampleAckedState : SessionState :=
  { current_salt := none
    pending_acks := [21, 33]
    results := [(100, ResultSlot.new)]
    updates_queue := []
    is_connected := true
    connectionOpen := true
    tasksRunning := true
    hasClient := true }

/-- Concrete duplicate: odd seq_no, msg_id 21 already in pending_acks. -/
def exampleDuplicateMsg : Message := ⟨21, 1, Body.rpcResult 100 (Body.update 5)⟩

/-- C4 witness: a concrete duplicate is dropped without any state change. -/
theorem duplicate_message_skipped_witness :
    exampleDuplicateMsg.seq_no % 2 = 1
    ∧ exampleDuplicateMsg.msg_id ∈ exampleAckedState.pending_acks
    ∧ processMsg exampleAckedState exampleDuplicateMsg = exampleAckedState :=
  ⟨by decide, by decide,
   duplicate_message_skipped exampleAckedState exampleDuplicateMsg (by decide) (by decide)⟩

/-- C7: the value found in the released slot determines the outcome of
`_send`: `None` raises `TimeoutError`; an `RpcError` raises the mapped
domain error tagged with the request type; a `BadMsgNotification` raises
an exception whose text is the `BAD_MSG_DESCRIPTION` entry for its
`error_code` when present and `"Error code N"` otherwise; any other value
is returned. -/
theorem send_result_interpretation (request_type : Nat) :
    interpretResult none request_type = SendOutcome.timeoutError
    ∧ (∀ code msg, interpretResult (some (Body.rpcError code msg)) request_type
        = SendOutcome.rpcErrorRaised code msg request_type)
    ∧ (∀ bmi ec d, BAD_MSG_DESCRIPTION ec = some d →
        interpretResult (some (Body.badMsgNotification bmi ec)) request_type
          = SendOutcome.badMsgException d)
    ∧ (∀ bmi ec, BAD_MSG_DESCRIPTION ec = none →
        interpretResult (some (Body.badMsgNotification bmi ec)) request_type
          = SendOutcome.badMsgException ("Error code " ++ toString ec))
    ∧ (∀ b, isRpcError b = false → isBadMsg b = false →
        interpretResult (some b) request_type = SendOutcome.returned b) := by
  refine ⟨rfl, fun _ _ => rfl, ?_, ?_, ?_⟩
  · intro bmi ec d h
    simp [interpretResult, h]
  · intro bmi ec h
    simp [interpretResult, h]
  · intro b h1 h2
    cases b <;> simp_all [isRpcError, isBadMsg, interpretResult]

/-- C7 witness: a bad-msg code in the table and one outside it. -/
theorem send_result_interpretation_witness :
    BAD_MSG_DESCRIPTION 48 = some "[48] incorrect server salt"
    ∧ interpretResult (some (Body.badMsgNotification 9 48)) 2
        = SendOutcome.badMsgException "[48] incorrect server salt"
    ∧ BAD_MSG_DESCRIPTION 99 = none
    ∧ interpretResult (some (Body.badMsgNotification 9 99)) 2
        = SendOutcome.badMsgException ("Error code " ++ toString 99) :=
  ⟨rfl, (send_result_interpretation 2).2.2.1 9 48 _ rfl, rfl,
   (send_result_interpretation 2).2.2.2.1 9 99 rfl⟩

/-- C9: during a successful `start()`, `current_salt` is assigned exactly
three times, in order: the `INITIAL_SALT` constant, then the
`new_server_salt` of the pong answering `ping(0)`, then the first salt of
the `GetFutureSalts(1)` answer; afterwards `current_salt` equals that
server-provided future salt and `is_connected` is set. -/
theorem start_salt_assignment_sequence (p : Nat) (s0 : FutureSalt)
    (rest : List FutureSalt) :
    startSaltAssignments p (s0 :: rest)
      = some [⟨0, 0, INITIAL_SALT⟩, ⟨0, 0, p⟩, s0]
    ∧ (startSaltAssignments p (s0 :: rest)).map List.length = some 3
    ∧ (startSaltAssignments p (s0 :: rest)).bind List.getLast? = some s0
    ∧ ∀ s : SessionState, ∃ st : SessionState,
        startStateSuccess p (s0 :: rest) s = some st
        ∧ st.current_salt = some s0 ∧ st.is_connected = true := by
  refine ⟨rfl, rfl, rfl, ?_⟩
  intro s
  exact ⟨_, rfl, rfl, rfl⟩

/-- C6: `send` makes at most `retries + 1` `_send` attempts (6 with the
default `retries = MAX_RETRIES = 5`); with `retries = 0` a failed attempt
propagates; an error outside `OSError`/`TimeoutError`/`InternalServerError`
propagates immediately without retry; a retryable error with budget left
recurses after one 0.5 s sleep with `retries - 1`. -/
theorem send_retry_policy (connWait : Nat → WaitOutcome)
    (attempt : Nat → AttemptOutcome) (i retries : Nat) :
    (send connWait attempt i retries).attempts ≤ retries + 1
    ∧ (send connWait attempt i MAX_RETRIES).attempts ≤ 6
    ∧ (isOk (attempt i) = false →
        send connWait attempt i 0 = ⟨SendFinal.raised (attempt i), 1, 0⟩)
    ∧ (isOk (attempt i) = false → isRetryable (attempt i) = false →
        send connWait attempt i retries = ⟨SendFinal.raised (attempt i), 1, 0⟩)
    ∧ (isRetryable (attempt i) = true →
        send connWait attempt i (retries + 1)
          = ⟨(send connWait attempt (i + 1) retries).outcome,
             (send connWait attempt (i + 1) retries).attempts + 1,
             (send connWait attempt (i + 1) retries).sleeps + 1⟩) := by
  refine ⟨send_attempts_le connWait attempt i retries,
          send_attempts_le connWait attempt i MAX_RETRIES, ?_, ?_, ?_⟩
  · exact send_zero_err connWait attempt i
  · exact send_nonretryable_immediate connWait attempt i retries
  · exact send_succ_retryable connWait attempt i retries

/-- C6 witness: an uncaught error propagates with a single attempt. -/
theorem send_retry_policy_witness :
    send (fun _ => WaitOutcome.ready) (fun _ => AttemptOutcome.otherError 7) 0 5
      = ⟨SendFinal.raised (AttemptOutcome.otherError 7), 1, 0⟩ :=
  (send_retry_policy (fun _ => WaitOutcome.ready)
    (fun _ => AttemptOutcome.otherError 7) 0 5).2.2.2.1 rfl rfl

/-- C10: the timeout of the initial `is_connected` wait in `send` is
swallowed: the whole trace of `send` is independent of the outcome of that
wait, and on a never-connected session the error surfaced is exactly the
one the underlying `_send` attempt produces, not a connectivity error. -/
theorem send_swallows_connect_wait_timeout (connWait : Nat → WaitOutcome)
    (attempt : Nat → AttemptOutcome) (i retries : Nat) :
    send (fun _ => WaitOutcome.timedOut) attempt i retries
      = send connWait attempt i retries
    ∧ (isOk (attempt i) = false → isRetryable (attempt i) = false →
        send (fun _ => WaitOutcome.timedOut) attempt i retries
          = ⟨SendFinal.raised (attempt i), 1, 0⟩) := by
  constructor
  · exact send_wait_irrelevant _ connWait attempt i retries
  · exact send_nonretryable_immediate _ attempt i retries

/-- C10 witness: with every `is_connected` wait timing out, the transport
attempt error is what surfaces. -/
theorem send_swallows_connect_wait_timeout_witness :
    send (fun _ => WaitOutcome.timedOut) (fun _ => AttemptOutcome.otherError 3) 0 5
      = ⟨SendFinal.raised (AttemptOutcome.otherError 3), 1, 0⟩ :=
  (send_swallows_connect_wait_timeout (fun _ => WaitOutcome.ready)
    (fun _ => AttemptOutcome.otherError 3) 0 5).2 rfl rfl

theorem dispatchBody_routed (s1 : SessionState) (b : Body) (mid : Nat)
    (hearly : isEarlyHandled b = false) (hroute : routeMsgId b = some mid) :
    dispatchBody s1 b = resolveSlot s1 mid (getResultAttr b) := by
  cases b <;> simp_all [isEarlyHandled, routeMsgId, dispatchBody, getResultAttr]

theorem dispatchBody_unrouted (s1 : SessionState) (b : Body)
    (hearly : isEarlyHandled b = false) (hroute : routeMsgId b = none) :
    dispatchBody s1 b
      = if s1.hasClient then { s1 with updates_queue := s1.updates_queue ++ [b] }
        else s1 := by
  cases b <;> simp_all [isEarlyHandled, routeMsgId, dispatchBody]

/-- Session whose current salt is 10 with request msg_id 100 in flight. -/
def exampleSaltState : SessionState :=
  { current_salt := some ⟨0, 0, 10⟩
    pending_acks := []
    results := [(100, ResultSlot.new)]
    updates_queue := []
    is_connected := true
    connectionOpen := true
    tasksRunning := true
    hasClient := true }

/-- Inbound `bad_server_salt` answering msg_id 100 and carrying
`new_server_salt = 77`. -/
def exampleBadSaltMsg : Message := ⟨101, 1, Body.badServerSalt 100 48 77⟩

/-- C3 counterexample: the worker resolves the slot of the outstanding
request with the `BadServerSalt` body, but `current_salt` keeps its old
value 10; it does not become the carried `new_server_salt = 77`, so the
claimed salt replacement does not happen. -/
theorem bad_server_salt_not_replaced :
    (processMsg exampleSaltState exampleBadSaltMsg).results.lookup 100
      = some { value := some (Body.badServerSalt 100 48 77), eventSet := true }
    ∧ (processMsg exampleSaltState exampleBadSaltMsg).current_salt = some ⟨0, 0, 10⟩
    ∧ (processMsg exampleSaltState exampleBadSaltMsg).current_salt.map FutureSalt.salt
        ≠ some 77 := by decide

/-- C3 amended: when the worker processes a `BadServerSalt` whose
`bad_msg_id` matches an outstanding request, it stores the `BadServerSalt`
body into the slot and fires the signal of the slot, while `current_salt`
is left unchanged: the caller receives the `BadServerSalt` object and no
automatic salt replacement takes place. -/
theorem bad_server_salt_resolves_slot_salt_unchanged (s : SessionState) (m : Message)
    (bmi ec nss : Nat) (hbody : m.body = Body.badServerSalt bmi ec nss)
    (hdup : ¬(m.seq_no % 2 ≠ 0 ∧ m.msg_id ∈ s.pending_acks))
    (hslot : (s.results.lookup bmi).isSome) :
    (processMsg s m).current_salt = s.current_salt
    ∧ (processMsg s m).results.lookup bmi
        = some { value := some (Body.badServerSalt bmi ec nss), eventSet := true } := by
  refine ⟨processMsg_current_salt s m, ?_⟩
  have hroute : routeMsgId m.body = some bmi := by rw [hbody]; rfl
  have hearly : isEarlyHandled m.body = false := by rw [hbody]; rfl
  have hs1 : ((ackStep s m).results.lookup bmi).isSome := by
    rw [ackStep_results]; exact hslot
  unfold processMsg
  rw [if_neg hdup, dispatchBody_routed _ _ bmi hearly hroute]
  rw [resolveSlot_of_isSome _ bmi _ hs1, hbody]
  rfl

/-- C3 amended witness: the concrete bad-salt exchange. -/
theorem bad_server_salt_resolves_slot_salt_unchanged_witness :
    (processMsg exampleSaltState exampleBadSaltMsg).current_salt
      = exampleSaltState.current_salt
    ∧ (processMsg exampleSaltState exampleBadSaltMsg).results.lookup 100
        = some { value := some (Body.badServerSalt 100 48 77), eventSet := true } :=
  bad_server_salt_resolves_slot_salt_unchanged exampleSaltState exampleBadSaltMsg
    100 48 77 rfl (by decide) (by decide)

/-- C5: after the worker dispatches a packet, when `pending_acks` has
reached `ACKS_THRESHOLD` it attempts exactly one `msgs_ack` carrying the
entire accumulated set, fire-and-forget; on success `pending_acks` is
cleared and nothing else changes, while on a transport error
(`OSError`/`TimeoutError`) the state is left unchanged for the next
attempt. -/
theorem ack_flush_behaviour (s : SessionState) (msgs : List Message)
    (outcome : AckSendOutcome)
    (h : ACKS_THRESHOLD ≤ (dispatchAll s msgs).pending_acks.length) :
    (processPacket s msgs outcome).2 = [(dispatchAll s msgs).pending_acks]
    ∧ (outcome = AckSendOutcome.ok →
        (processPacket s msgs outcome).1
          = { dispatchAll s msgs with pending_acks := [] })
    ∧ (outcome = AckSendOutcome.osError →
        (processPacket s msgs outcome).1 = dispatchAll s msgs)
    ∧ (outcome = AckSendOutcome.timeoutError →
        (processPacket s msgs outcome).1 = dispatchAll s msgs) := by
  unfold processPacket flushAcks
  rw [if_pos h]
  cases outcome <;> simp

/-- Fresh session with nothing pending. -/
def exampleEmptyState : SessionState :=
  { current_salt := none
    pending_acks := []
    results := []
    updates_queue := []
    is_connected := true
    connectionOpen := true
    tasksRunning := true
    hasClient := false }

/-- Eight distinct content messages (odd seq_no), enough to reach the ack
threshold. -/
def exampleAckMsgs : List Message :=
  (List.range 8).map (fun k => ⟨2 * k + 1, 1, Body.update k⟩)

/-- C5 witness: eight content messages produce one full msgs_ack and an
emptied set on success. -/
theorem ack_flush_behaviour_witness :
    ACKS_THRESHOLD ≤ (dispatchAll exampleEmptyState exampleAckMsgs).pending_acks.length
    ∧ (processPacket exampleEmptyState exampleAckMsgs AckSendOutcome.ok).2
        = [(dispatchAll exampleEmptyState exampleAckMsgs).pending_acks]
    ∧ (processPacket exampleEmptyState exampleAckMsgs AckSendOutcome.ok).1.pending_acks
        = [] :=
  ⟨by decide,
   (ack_flush_behaviour exampleEmptyState exampleAckMsgs AckSendOutcome.ok (by decide)).1,
   by rw [(ack_flush_behaviour exampleEmptyState exampleAckMsgs AckSendOutcome.ok
        (by decide)).2.1 rfl]⟩

/-- C8: routing of a dispatched inbound message.  The five routed body
kinds resolve the msg_id given by `routeMsgId`; a routed msg_id with a
slot gets the result attribute of the body (else the body itself) stored
and the signal fired; a routed msg_id without a slot is a no-op, not an
error; an unrouted body goes to the client updates queue and resolves no
slot. -/
theorem worker_dispatch_routing (s : SessionState) (m : Message)
    (hdup : ¬(m.seq_no % 2 ≠ 0 ∧ m.msg_id ∈ s.pending_acks))
    (hearly : isEarlyHandled m.body = false) :
    (∀ a b, routeMsgId (Body.badMsgNotification a b) = some a)
    ∧ (∀ a b c, routeMsgId (Body.badServerSalt a b c) = some a)
    ∧ (∀ a l, routeMsgId (Body.futureSaltsBody a l) = some a)
    ∧ (∀ a r, routeMsgId (Body.rpcResult a r) = some a)
    ∧ (∀ a b, routeMsgId (Body.pong a b) = some a)
    ∧ (∀ mid, routeMsgId m.body = some mid →
        (processMsg s m).updates_queue = s.updates_queue
        ∧ (s.results.lookup mid = none → (processMsg s m).results = s.results)
        ∧ ((s.results.lookup mid).isSome →
            (processMsg s m).results.lookup mid
              = some { value := some (getResultAttr m.body), eventSet := true }))
    ∧ (routeMsgId m.body = none →
        (processMsg s m).results = s.results
        ∧ (s.hasClient = true →
            (processMsg s m).updates_queue = s.updates_queue ++ [m.body])) := by
  refine ⟨fun _ _ => rfl, fun _ _ _ => rfl, fun _ _ => rfl, fun _ _ => rfl,
          fun _ _ => rfl, ?_, ?_⟩
  · intro mid hmid
    have hd : processMsg s m = resolveSlot (ackStep s m) mid (getResultAttr m.body) := by
      unfold processMsg
      rw [if_neg hdup, dispatchBody_routed _ _ mid hearly hmid]
    refine ⟨?_, ?_, ?_⟩
    · rw [hd, resolveSlot_updates_queue, ackStep_updates_queue]
    · intro hnone
      have h0 : (ackStep s m).results.lookup mid = none := by
        rw [ackStep_results]; exact hnone
      rw [hd, resolveSlot_of_none _ _ _ h0, ackStep_results]
    · intro hsome
      have h0 : ((ackStep s m).results.lookup mid).isSome := by
        rw [ackStep_results]; exact hsome
      rw [hd, resolveSlot_of_isSome _ _ _ h0]
  · intro hroute
    have hd : processMsg s m
        = if (ackStep s m).hasClient then
            { ackStep s m with
              updates_queue := (ackStep s m).updates_queue ++ [m.body] }
          else ackStep s m := by
      unfold processMsg
      rw [if_neg hdup, dispatchBody_unrouted _ _ hearly hroute]
    constructor
    · rw [hd]
      split
      · exact ackStep_results s m
      · exact ackStep_results s m
    · intro hc
      have hc1 : (ackStep s m).hasClient = true := by
        rw [ackStep_hasClient]; exact hc
      rw [hd, if_pos hc1]
      show (ackStep s m).updates_queue ++ [m.body] = s.updates_queue ++ [m.body]
      rw [ackStep_updates_queue]

/-- Session with request msg_id 40 in flight and a client attached. -/
def exampleRpcState : SessionState :=
  { current_salt := none
    pending_acks := []
    results := [(40, ResultSlot.new)]
    updates_queue := []
    is_connected := true
    connectionOpen := true
    tasksRunning := true
    hasClient := true }

/-- Inbound `rpc_result` answering msg_id 40. -/
def exampleRpcMsg : Message := ⟨41, 1, Body.rpcResult 40 (Body.update 6)⟩

/-- C8 witness: a concrete rpc_result resolves its slot with the inner
result and leaves the updates queue alone. -/
theorem worker_dispatch_routing_witness :
    (processMsg exampleRpcState exampleRpcMsg).updates_queue
      = exampleRpcState.updates_queue
    ∧ (processMsg exampleRpcState exampleRpcMsg).results.lookup 40
        = some { value := some (Body.update 6), eventSet := true } :=
  ⟨((worker_dispatch_routing exampleRpcState exampleRpcMsg (by decide)
      (by decide)).2.2.2.2.2.1 40 rfl).1,
   ((worker_dispatch_routing exampleRpcState exampleRpcMsg (by decide)
      (by decide)).2.2.2.2.2.1 40 rfl).2.2 (by decide)⟩

/-- Session that just observed transport EOF while `is_connected` is still
set: the exact situation in which `recv` schedules `restart()`
(session.py lines 342-343).  Request msg_id 8 is still in flight. -/
def exampleEofState : SessionState :=
  { current_salt := some ⟨0, 0, 3⟩
    pending_acks := []
    results := [(8, ResultSlot.new)]
    updates_queue := []
    is_connected := true
    connectionOpen := false
    tasksRunning := true
    hasClient := false }

/-- C2: `restart()` does not behave like `stop()` run to completion
followed by `start()` run to completion.  Because the two coroutines are
never awaited, `restartEffect` is the identity: the background tasks keep
running, the transport is not reopened, and the pending slot is never
released -- whereas the sequential composition fires the slot, reopens the
transport and resets the salt.  The last conjunct shows `restart` did not
even perform the `stop` half. -/
theorem restart_is_noop_not_stop_then_start :
    restartEffect exampleEofState = exampleEofState
    ∧ (restartEffect exampleEofState).is_connected = true
    ∧ (restartEffect exampleEofState).connectionOpen = false
    ∧ (restartEffect exampleEofState).results.lookup 8
        = some { value := none, eventSet := false }
    ∧ stopThenStart 7 [⟨100, 200, 9⟩] exampleEofState
        = some { current_salt := some ⟨100, 200, 9⟩
                 pending_acks := []
                 results := [(8, { value := none, eventSet := true })]
                 updates_queue := []
                 is_connected := true
                 connectionOpen := true
                 tasksRunning := true
                 hasClient := false }
    ∧ restartEffect exampleEofState ≠ stopState exampleEofState := by decide

end PyrogramSession
